import Mathlib

/-!
Verification of the credential-and-synchronization core of the
homebridge-somfy-protect plugin, as a shallow embedding in Lean 4.

The embedding covers:
* `SomfyProtectAuth` (token lifecycle manager, `src/auth.ts`):
  `isTokenExpired`, `requestNewToken`, `refreshToken`, `getAccessToken`,
  `forceRefresh`, `clearToken`.  Network responses are passed in as explicit
  oracle values (`HttpResult`); the mutable fields `this.token` and the
  persisted token file are modelled as an explicit `AuthState` record that is
  threaded through each operation.  Timestamps are `Int` milliseconds
  (JavaScript `Date.now()`).
* The 401 response interceptor of `SomfyProtectApi` (`src/api.ts`),
  modelled as a recursion over the successive outcomes of sending the
  same request (`runRequest`).
* The adaptive polling scheduler of `SomfyProtectPlatform`
  (`src/platform.ts`): `getPollingInterval`, `startPolling`,
  `restartPolling`, and the per-tick body `pollStatus` (here `processSites`),
  with the timer modelled as an explicit `TimerState`.
-/

instance {ε α : Type} [DecidableEq ε] [DecidableEq α] : DecidableEq (Except ε α)
  | Except.ok a, Except.ok b =>
      if h : a = b then Decidable.isTrue (by rw [h])
      else Decidable.isFalse (fun hc => h (Except.ok.inj hc))
  | Except.error e, Except.error e' =>
      if h : e = e' then Decidable.isTrue (by rw [h])
      else Decidable.isFalse (fun hc => h (Except.error.inj hc))
  | Except.ok _, Except.error _ => Decidable.isFalse (fun hc => Except.noConfusion hc)
  | Except.error _, Except.ok _ => Decidable.isFalse (fun hc => Except.noConfusion hc)

namespace SomfyProtect

/-- The OAuth token record (`OAuthToken` in `src/types.ts`).  The remote
response carries no `issuedAt`; the code stamps it locally, so a parsed
cached file may lack the field (`Option`).  `refresh_token` is likewise
optional because the code guards every use with a JavaScript truthiness
check (`this.token?.refresh_token`). -/
structure OAuthToken where
  access_token : String
  expires_in : Int
  token_type : String
  scope : String
  refresh_token : Option String
  issuedAt : Option Int
deriving DecidableEq, Repr

/-- Outcome of one POST to the token endpoint: a parsed token response,
an axios error carrying an optional HTTP status (`error.response?.status`),
or a non-axios error. -/
inductive HttpResult where
  | ok (r : OAuthToken)
  | httpError (status : Option Int)
  | otherError
deriving DecidableEq, Repr

/-- Errors thrown out of the auth layer: `SomfyProtectApiError` with its
optional HTTP status, a rethrown non-axios error, or the final
`Failed to obtain access token` guard in `getAccessToken`. -/
inductive AuthErr where
  | api (status : Option Int)
  | nonAxios
  | noToken
deriving DecidableEq, Repr

/-- The mutable state of a `SomfyProtectAuth` instance: the in-memory
`this.token` and the persisted token file (`somfy-protect-token.json`);
`none` means the file is absent. -/
structure AuthState where
  token : Option OAuthToken
  file : Option OAuthToken
deriving DecidableEq, Repr

/-- JavaScript truthiness of `this.token?.refresh_token`: present and
non-empty. -/
def hasRefreshToken : Option OAuthToken → Bool
  | none => false
  | some t =>
    match t.refresh_token with
    | none => false
    | some s => s != ""

/-- `isTokenExpired` from `src/auth.ts`: true when no token is cached,
when `issuedAt` is absent or `0` (JavaScript falsy), or when
`now >= issuedAt + expires_in*1000 - 60000` (60-second buffer). -/
def isTokenExpired (now : Int) : Option OAuthToken → Bool
  | none => true
  | some t =>
    match t.issuedAt with
    | none => true
    | some i =>
      if i = 0 then true
      else decide (now ≥ i + t.expires_in * 1000 - 60000)

/-- `{...response.data, issuedAt: Date.now()}`: stamp the locally observed
issue time onto the remote response. -/
def withIssuedAt (r : OAuthToken) (now : Int) : OAuthToken :=
  { r with issuedAt := some now }

/-- `requestNewToken` from `src/auth.ts`: password-grant exchange.  On a
successful response the stamped token is stored in memory and persisted
(`saveToken`); an axios error becomes a `SomfyProtectApiError` carrying the
HTTP status; other errors are rethrown. -/
def requestNewToken (now : Int) (resp : HttpResult) (_s : AuthState) :
    Except AuthErr (OAuthToken × AuthState) :=
  match resp with
  | HttpResult.ok r =>
    let t := withIssuedAt r now
    Except.ok (t, ⟨some t, some t⟩)
  | HttpResult.httpError st => Except.error (AuthErr.api st)
  | HttpResult.otherError => Except.error AuthErr.nonAxios

/-- `refreshToken` from `src/auth.ts`: without a (truthy) refresh token it
delegates to `requestNewToken`.  Otherwise it performs a refresh-token
exchange (`refreshResp`); on success it stores and persists the stamped
token; on an axios error with status 400 or 401 it falls back to
`requestNewToken` (`passwordResp`); any other axios error becomes a
`SomfyProtectApiError`; other errors are rethrown. -/
def refreshToken (now : Int) (refreshResp passwordResp : HttpResult) (s : AuthState) :
    Except AuthErr (OAuthToken × AuthState) :=
  if hasRefreshToken s.token then
    match refreshResp with
    | HttpResult.ok r =>
      let t := withIssuedAt r now
      Except.ok (t, ⟨some t, some t⟩)
    | HttpResult.httpError st =>
      if st = some 400 ∨ st = some 401 then requestNewToken now passwordResp s
      else Except.error (AuthErr.api st)
    | HttpResult.otherError => Except.error AuthErr.nonAxios
  else requestNewToken now passwordResp s

/-- The inner acquisition branch of `getAccessToken` (and the body of
`forceRefresh`): prefer `refreshToken` when a refresh token is held, else
`requestNewToken`; only the resulting state matters to the caller. -/
def acquireToken (now : Int) (refreshResp passwordResp : HttpResult) (s : AuthState) :
    Except AuthErr AuthState :=
  if hasRefreshToken s.token then
    match refreshToken now refreshResp passwordResp s with
    | Except.error e => Except.error e
    | Except.ok p => Except.ok p.2
  else
    match requestNewToken now passwordResp s with
    | Except.error e => Except.error e
    | Except.ok p => Except.ok p.2

/-- `getAccessToken` from `src/auth.ts`: if no token is cached or the
cached token is expired, acquire (refresh preferred); then return
`this.token.access_token`, or throw `Failed to obtain access token` if the
token is still absent. -/
def getAccessToken (now : Int) (refreshResp passwordResp : HttpResult) (s : AuthState) :
    Except AuthErr (String × AuthState) :=
  let after : Except AuthErr AuthState :=
    if s.token.isNone || isTokenExpired now s.token then
      acquireToken now refreshResp passwordResp s
    else Except.ok s
  match after with
  | Except.error e => Except.error e
  | Except.ok s' =>
    match s'.token with
    | none => Except.error AuthErr.noToken
    | some t => Except.ok (t.access_token, s')

/-- `forceRefresh` from `src/auth.ts`: unconditionally refresh (or
reacquire when no refresh token is held), regardless of expiry. -/
def forceRefresh (now : Int) (refreshResp passwordResp : HttpResult) (s : AuthState) :
    Except AuthErr AuthState :=
  acquireToken now refreshResp passwordResp s

/-- `clearToken` from `src/auth.ts`: drop the in-memory token; remove the
backing file when it exists (`fs.existsSync` guard), and do nothing — in
particular raise no error — when it is absent.  The function is total:
clearing never fails. -/
def clearToken (s : AuthState) : AuthState :=
  let file' : Option OAuthToken :=
    match s.file with
    | some _ => none
    | none => none
  ⟨none, file'⟩

/-- Outcome of one transport-level send of an API request in
`SomfyProtectApi` (`src/api.ts`): a successful response body, an axios
error with an HTTP status, or an error with no response status. -/
inductive ReqOutcome where
  | success (data : String)
  | failStatus (status : Int)
  | failNoStatus
deriving DecidableEq, Repr

/-- What a `SomfyProtectApi` call ultimately yields after the response
interceptor: the data, a `SomfyProtectApiError` with an optional status, or
a rethrown raw (non-axios) error. -/
inductive ApiResult where
  | ok (data : String)
  | apiError (status : Option Int)
  | rawError
deriving DecidableEq, Repr

/-- The response interceptor of `src/api.ts`, run against the successive
outcomes of sending the same request.  On a 401, `forceRefresh()` is
invoked (abstracted by `refreshOk : Bool`, the request config being always
present); when it succeeds the original request is replayed through the
same axios instance — so the replay passes through this very interceptor
again, consuming the next outcome.  When the refresh fails, or on any
non-401 axios error, a `SomfyProtectApiError` with that status is thrown;
errors without a status are modelled as raw errors.  An exhausted outcome
list (never reached on adequate traces) yields `rawError`. -/
def runRequest (refreshOk : Bool) : List ReqOutcome → ApiResult
  | [] => ApiResult.rawError
  | o :: rest =>
    match o with
    | ReqOutcome.success d => ApiResult.ok d
    | ReqOutcome.failStatus st =>
      if st = 401 then
        if refreshOk then runRequest refreshOk rest
        else ApiResult.apiError (some 401)
      else ApiResult.apiError (some st)
    | ReqOutcome.failNoStatus => ApiResult.rawError

/-- Modelled from the claim's words, for comparison with `runRequest`:
a 401 triggers a refresh and exactly one replay; if the single replay
itself fails — with any status, 401 included — that error propagates
without a further refresh-and-replay. -/
def runRequestSpecOnce (refreshOk : Bool) : List ReqOutcome → ApiResult
  | [] => ApiResult.rawError
  | o :: rest =>
    match o with
    | ReqOutcome.success d => ApiResult.ok d
    | ReqOutcome.failStatus st =>
      if st = 401 then
        if refreshOk then
          match rest with
          | [] => ApiResult.rawError
          | o' :: _ =>
            match o' with
            | ReqOutcome.success d => ApiResult.ok d
            | ReqOutcome.failStatus st' => ApiResult.apiError (some st')
            | ReqOutcome.failNoStatus => ApiResult.rawError
        else ApiResult.apiError (some 401)
      else ApiResult.apiError (some st)
    | ReqOutcome.failNoStatus => ApiResult.rawError

/-- The configuration fields read by the polling scheduler
(`src/platform.ts`).  All are optional in the user's `config.json`;
`Option.none` models an absent field.  `Int` interval values of `0` are
JavaScript-falsy and fall back to the default, mirroring
`this.config.pollingInterval || POLLING_CONFIG.INITIAL_INTERVAL`. -/
structure SomfyConfig where
  adaptivePolling : Option Bool
  pollingInterval : Option Int
  fastPollingInterval : Option Int
  fastPollingDuration : Option Int
deriving DecidableEq, Repr

/-- JavaScript `x || d` for an optional numeric config value: absent or
zero falls back to the default. -/
def jsOrInt : Option Int → Int → Int
  | none, d => d
  | some v, d => if v = 0 then d else v

/-- `POLLING_CONFIG.INITIAL_INTERVAL` from `src/settings.ts`. -/
def INITIAL_INTERVAL : Int := 10000

/-- `POLLING_CONFIG.FAST_INTERVAL` from `src/settings.ts`. -/
def FAST_INTERVAL : Int := 5000

/-- `POLLING_CONFIG.SLOW_INTERVAL` from `src/settings.ts` (declared there;
not read by the scheduler code). -/
def SLOW_INTERVAL : Int := 30000

/-- `POLLING_CONFIG.FAST_POLLING_DURATION` from `src/settings.ts`. -/
def FAST_POLLING_DURATION : Int := 60000

/-- `this.config.adaptivePolling !== false`: adaptive polling is enabled
unless the config explicitly sets it to `false`. -/
def adaptiveEnabled (c : SomfyConfig) : Bool :=
  c.adaptivePolling != some false

/-- The scheduler's mutable fields on `SomfyProtectPlatform`:
`lastStateChange`, `previousStates` (site id → last observed
`security_level`, an association list standing for the `Map`), and
`isFastPolling`. -/
structure SchedState where
  lastStateChange : Int
  previousStates : List (String × String)
  isFastPolling : Bool
deriving DecidableEq, Repr

/-- `Map.get` on `previousStates`. -/
def lookupLevel : List (String × String) → String → Option String
  | [], _ => none
  | (k', v') :: rest, k => if k' = k then some v' else lookupLevel rest k

/-- `Map.set` on `previousStates`: replace the binding if the key is
present, else add it. -/
def setLevel : List (String × String) → String → String → List (String × String)
  | [], k, v => [(k, v)]
  | (k', v') :: rest, k, v =>
    if k' = k then (k, v) :: rest else (k', v') :: setLevel rest k v

/-- `getPollingInterval` from `src/platform.ts`: with adaptive polling
disabled, the configured base interval (default 10000); otherwise the fast
interval (default 5000) while `now - lastStateChange` is within the fast
window (default 60000), else the base interval. -/
def getPollingInterval (c : SomfyConfig) (now : Int) (st : SchedState) : Int :=
  if adaptiveEnabled c then
    if now - st.lastStateChange < jsOrInt c.fastPollingDuration FAST_POLLING_DURATION then
      jsOrInt c.fastPollingInterval FAST_INTERVAL
    else jsOrInt c.pollingInterval INITIAL_INTERVAL
  else jsOrInt c.pollingInterval INITIAL_INTERVAL

/-- Whether `this.pollingInterval` (the node timer handle) is set. -/
structure TimerState where
  active : Bool
deriving DecidableEq, Repr

/-- The observable effect of `startPolling`/`restartPolling`: the new
timer state, the interval the new timer was scheduled at (`none` when the
call was a no-op), and whether an immediate `pollStatus()` tick was
performed. -/
structure StartResult where
  timer : TimerState
  scheduledInterval : Option Int
  immediateTick : Bool
deriving DecidableEq, Repr

/-- `startPolling` from `src/platform.ts`: a no-op when a timer is already
active; otherwise schedule at `getPollingInterval()` and do an immediate
poll. -/
def startPolling (c : SomfyConfig) (now : Int) (st : SchedState) (t : TimerState) :
    StartResult :=
  if t.active then ⟨t, none, false⟩
  else ⟨⟨true⟩, some (getPollingInterval c now st), true⟩

/-- `restartPolling` from `src/platform.ts`: clear the outstanding timer
(if any) and delegate to `startPolling`. -/
def restartPolling (c : SomfyConfig) (now : Int) (st : SchedState) (_t : TimerState) :
    StartResult :=
  startPolling c now st ⟨false⟩

/-- The `else if (this.isFastPolling)` arm of the per-site adaptive check
in `pollStatus`: when in fast mode and the fast window has elapsed, leave
fast mode and restart the timer (the `Nat` counts `restartPolling` calls). -/
def fastWindowCheck (c : SomfyConfig) (now : Int) (st : SchedState) : SchedState × Nat :=
  if st.isFastPolling then
    if now - st.lastStateChange ≥ jsOrInt c.fastPollingDuration FAST_POLLING_DURATION then
      ({ st with isFastPolling := false }, 1)
    else (st, 0)
  else (st, 0)

/-- The adaptive-polling block of `pollStatus` for one site with observed
level `lvl`: when adaptive polling is enabled, a previously recorded level
differing from `lvl` resets `lastStateChange` and enters fast mode
(restarting the timer only when fast mode was not already active);
otherwise the fast-window close-out check runs; in either case the site's
entry in `previousStates` is then set to `lvl`.  When adaptive polling is
disabled the state is untouched. -/
def updateSiteState (c : SomfyConfig) (now : Int) (st : SchedState) (sid lvl : String) :
    SchedState × Nat :=
  if adaptiveEnabled c then
    let pr : SchedState × Nat :=
      match lookupLevel st.previousStates sid with
      | some prev =>
        if prev ≠ lvl then
          ({ st with lastStateChange := now, isFastPolling := true },
           if st.isFastPolling then 0 else 1)
        else fastWindowCheck c now st
      | none => fastWindowCheck c now st
    ({ pr.1 with previousStates := setLevel pr.1.previousStates sid lvl }, pr.2)
  else (st, 0)

/-- Result of one `pollStatus` tick: the scheduler state afterwards, the
`siteUpdated` events emitted (in order), the number of `restartPolling`
calls made during the tick, and whether the tick's `catch` block ran
(logging `Polling error (will retry)` at debug severity). -/
structure TickResult where
  state : SchedState
  events : List (String × String)
  restarts : Nat
  errorCaught : Bool
deriving DecidableEq, Repr

/-- The body of `pollStatus` from `src/platform.ts`.  Each tracked site is
listed with the outcome of `this.api.getSite` for it: `some lvl` is a
successful fetch observing `security_level = lvl`, `none` a fetch (or
processing) error.  The `try`/`catch` wraps the whole `for` loop, so the
first error ends the tick: the error is caught and logged, and the
remaining sites are neither fetched nor published.  For each successful
site, the adaptive state update runs and a `siteUpdated` event is emitted. -/
def processSites (c : SomfyConfig) (now : Int) :
    List (String × Option String) → SchedState → TickResult
  | [], st => ⟨st, [], 0, false⟩
  | (_, none) :: _, st => ⟨st, [], 0, true⟩
  | (sid, some lvl) :: rest, st =>
    let p := updateSiteState c now st sid lvl
    let r := processSites c now rest p.1
    ⟨r.state, (sid, lvl) :: r.events, p.2 + r.restarts, r.errorCaught⟩

/-! Theorems.  Each claim of the specification gets one theorem (with a
counterexample first when the claim fails on the code as stated). -/

/-- C5: for a cached token record with a present, nonzero `issuedAt`,
`getAccessToken()` routes through token acquisition exactly when
`now ≥ issuedAt + expires_in*1000 - 60000`, and when
`now < issuedAt + expires_in*1000 - 60001` it returns the cached
`access_token` with the state untouched and no acquisition. -/
theorem c5_token_buffer (t : OAuthToken) (i now : Int) (f : Option OAuthToken)
    (r1 r2 : HttpResult)
    (h1 : t.issuedAt = some i) (h2 : i ≠ 0) :
    (isTokenExpired now (some t) = true ↔ now ≥ i + t.expires_in * 1000 - 60000) ∧
    (now ≥ i + t.expires_in * 1000 - 60000 →
      getAccessToken now r1 r2 ⟨some t, f⟩ =
        match acquireToken now r1 r2 ⟨some t, f⟩ with
        | Except.error e => Except.error e
        | Except.ok s' =>
          match s'.token with
          | none => Except.error AuthErr.noToken
          | some u => Except.ok (u.access_token, s')) ∧
    (now < i + t.expires_in * 1000 - 60001 →
      getAccessToken now r1 r2 ⟨some t, f⟩ = Except.ok (t.access_token, ⟨some t, f⟩)) :=
  by
  have hexp : isTokenExpired now (some t) =
      decide (now ≥ i + t.expires_in * 1000 - 60000) := by
    simp [isTokenExpired, h1, h2]
  refine ⟨by simp [hexp], ?_, ?_⟩
  · intro h
    have hc : ((some t : Option OAuthToken).isNone || isTokenExpired now (some t)) = true := by
      simp [hexp, h]
    simp only [getAccessToken, hc, if_true]
  · intro h
    have hc : ((some t : Option OAuthToken).isNone || isTokenExpired now (some t)) = false := by
      simp only [Option.isNone_some, Bool.false_or, hexp]
      simp only [decide_eq_false_iff_not]
      omega
    simp only [getAccessToken, hc, Bool.false_eq_true, if_false]

/-- C5 witness: with `issuedAt = 1000000` and `expires_in = 3600` the
expiry threshold is 4540000; at 4540000 the token counts as expired, and
at 4539998 the cached token is returned unchanged. -/
theorem c5_token_buffer_witness :
    isTokenExpired 4540000 (some ⟨"acc", 3600, "Bearer", "sc", some "rt", some 1000000⟩) = true ∧
    getAccessToken 4539998 HttpResult.otherError HttpResult.otherError
        ⟨some ⟨"acc", 3600, "Bearer", "sc", some "rt", some 1000000⟩, none⟩ =
      Except.ok ("acc", ⟨some ⟨"acc", 3600, "Bearer", "sc", some "rt", some 1000000⟩, none⟩) :=
  ⟨((c5_token_buffer ⟨"acc", 3600, "Bearer", "sc", some "rt", some 1000000⟩ 1000000 4540000
      none HttpResult.otherError HttpResult.otherError rfl (by decide)).1).mpr (by decide),
   (c5_token_buffer ⟨"acc", 3600, "Bearer", "sc", some "rt", some 1000000⟩ 1000000 4539998
      none HttpResult.otherError HttpResult.otherError rfl (by decide)).2.2 (by decide)⟩

/-- C10: a cached token record whose `issuedAt` is absent or zero is
treated as expired, so `getAccessToken()` routes through acquisition and
never returns that record's `access_token` without it. -/
theorem c10_missing_issuedAt (t : OAuthToken) (f : Option OAuthToken) (now : Int)
    (r1 r2 : HttpResult)
    (h : t.issuedAt = none ∨ t.issuedAt = some 0) :
    isTokenExpired now (some t) = true ∧
    getAccessToken now r1 r2 ⟨some t, f⟩ =
      match acquireToken now r1 r2 ⟨some t, f⟩ with
      | Except.error e => Except.error e
      | Except.ok s' =>
        match s'.token with
        | none => Except.error AuthErr.noToken
        | some u => Except.ok (u.access_token, s') :=
  by
  have hexp : isTokenExpired now (some t) = true := by
    rcases h with h | h <;> simp [isTokenExpired, h]
  refine ⟨hexp, ?_⟩
  have hc : ((some t : Option OAuthToken).isNone || isTokenExpired now (some t)) = true := by
    simp [hexp]
  simp only [getAccessToken, hc, if_true]

/-- C10 witness: a persisted record with no `issuedAt` stamp is expired at
any time, and `getAccessToken` surfaces the acquisition outcome (here the
failure of the password grant) instead of the cached string. -/
theorem c10_missing_issuedAt_witness :
    isTokenExpired 0 (some ⟨"cached", 3600, "Bearer", "sc", none, none⟩) = true ∧
    getAccessToken 0 HttpResult.otherError HttpResult.otherError
        ⟨some ⟨"cached", 3600, "Bearer", "sc", none, none⟩, none⟩ =
      Except.error AuthErr.nonAxios :=
  ⟨(c10_missing_issuedAt ⟨"cached", 3600, "Bearer", "sc", none, none⟩ none 0
      HttpResult.otherError HttpResult.otherError (Or.inl rfl)).1,
   Eq.trans
     ((c10_missing_issuedAt ⟨"cached", 3600, "Bearer", "sc", none, none⟩ none 0
       HttpResult.otherError HttpResult.otherError (Or.inl rfl)).2) rfl⟩

/-- C7: `clearToken()` drops both the in-memory token and the persisted
file for every prior state (in particular, a missing file is not an
error), and an immediately following `getAccessToken()` is exactly a full
password-grant acquisition — its outcome is `requestNewToken`'s outcome on
the password-grant response alone, independent of the refresh oracle, so
no refresh-token exchange happens even if a refresh token existed before
the clear. -/
theorem c7_clear_then_password_grant (s : AuthState) (now : Int) (r1 r2 : HttpResult) :
    clearToken s = ⟨none, none⟩ ∧
    getAccessToken now r1 r2 (clearToken s) =
      match requestNewToken now r2 ⟨none, none⟩ with
      | Except.error e => Except.error e
      | Except.ok p => Except.ok (p.1.access_token, p.2) :=
  by
  have h1 : clearToken s = ⟨none, none⟩ := by
    cases hs : s.file <;> simp [clearToken, hs]
  refine ⟨h1, ?_⟩
  rw [h1]
  cases r2 <;> rfl

/-- C1: with a cached, expired token holding a refresh token, a
refresh-token exchange failing with HTTP 400 or 401 is never propagated:
`refreshToken` delegates to the password grant, and with a successful
password grant `getAccessToken()` succeeds with the newly stamped token,
persisted to the credential store. -/
theorem c1_refresh_fallback (t r : OAuthToken) (f : Option OAuthToken) (now : Int)
    (st : Option Int) (r2 : HttpResult)
    (hrt : hasRefreshToken (some t) = true)
    (hexp : isTokenExpired now (some t) = true)
    (hst : st = some 400 ∨ st = some 401) :
    refreshToken now (HttpResult.httpError st) r2 ⟨some t, f⟩ =
      requestNewToken now r2 ⟨some t, f⟩ ∧
    getAccessToken now (HttpResult.httpError st) (HttpResult.ok r) ⟨some t, f⟩ =
      Except.ok ((withIssuedAt r now).access_token,
        ⟨some (withIssuedAt r now), some (withIssuedAt r now)⟩) :=
  by
  have h1 : refreshToken now (HttpResult.httpError st) r2 ⟨some t, f⟩ =
      requestNewToken now r2 ⟨some t, f⟩ := by
    simp [refreshToken, hrt, hst]
  refine ⟨h1, ?_⟩
  have hc : ((some t : Option OAuthToken).isNone || isTokenExpired now (some t)) = true := by
    simp [hexp]
  have h2 : refreshToken now (HttpResult.httpError st) (HttpResult.ok r) ⟨some t, f⟩ =
      requestNewToken now (HttpResult.ok r) ⟨some t, f⟩ := by
    simp [refreshToken, hrt, hst]
  simp only [getAccessToken, hc, if_true, acquireToken, hrt, if_true, h2, requestNewToken]

/-- C1 witness: an expired cached token with refresh token `"rt"`, a 400
refresh failure, and a successful password grant yield a successful
`getAccessToken()` with the new token stored and persisted. -/
theorem c1_refresh_fallback_witness :
    refreshToken 10000000000 (HttpResult.httpError (some 400))
        (HttpResult.ok ⟨"new", 7200, "Bearer", "sc", some "rt2", none⟩)
        ⟨some ⟨"old", 3600, "Bearer", "sc", some "rt", some 1⟩, none⟩ =
      requestNewToken 10000000000 (HttpResult.ok ⟨"new", 7200, "Bearer", "sc", some "rt2", none⟩)
        ⟨some ⟨"old", 3600, "Bearer", "sc", some "rt", some 1⟩, none⟩ ∧
    getAccessToken 10000000000 (HttpResult.httpError (some 400))
        (HttpResult.ok ⟨"new", 7200, "Bearer", "sc", some "rt2", none⟩)
        ⟨some ⟨"old", 3600, "Bearer", "sc", some "rt", some 1⟩, none⟩ =
      Except.ok ("new",
        ⟨some ⟨"new", 7200, "Bearer", "sc", some "rt2", some 10000000000⟩,
         some ⟨"new", 7200, "Bearer", "sc", some "rt2", some 10000000000⟩⟩) :=
  c1_refresh_fallback ⟨"old", 3600, "Bearer", "sc", some "rt", some 1⟩
    ⟨"new", 7200, "Bearer", "sc", some "rt2", none⟩ none 10000000000 (some 400)
    (HttpResult.ok ⟨"new", 7200, "Bearer", "sc", some "rt2", none⟩)
    (by decide) (by decide) (Or.inl rfl)

/-- Setting a site's level and reading it back yields that level. -/
theorem lookupLevel_setLevel (m : List (String × String)) (k v : String) :
    lookupLevel (setLevel m k v) k = some v := by
  induction m with
  | nil => simp [setLevel, lookupLevel]
  | cons hd tl ih =>
    obtain ⟨k', v'⟩ := hd
    by_cases hk : k' = k
    · simp [setLevel, lookupLevel, hk]
    · simp [setLevel, lookupLevel, hk, ih]

/-- C2 counterexample: on the outcome trace 401, 401, success — with the
forced refresh succeeding — the code performs a second refresh-and-replay
after the failed first replay and returns the success, whereas the claim
(one replay, then propagate) would surface a 401 error. -/
theorem c2_counterexample :
    runRequest true
        [ReqOutcome.failStatus 401, ReqOutcome.failStatus 401, ReqOutcome.success "d"] =
      ApiResult.ok "d" ∧
    runRequestSpecOnce true
        [ReqOutcome.failStatus 401, ReqOutcome.failStatus 401, ReqOutcome.success "d"] =
      ApiResult.apiError (some 401) ∧
    runRequest true
        [ReqOutcome.failStatus 401, ReqOutcome.failStatus 401, ReqOutcome.success "d"] ≠
      runRequestSpecOnce true
        [ReqOutcome.failStatus 401, ReqOutcome.failStatus 401, ReqOutcome.success "d"] := by
  decide

/-- C2 amended: on a 401 the client refreshes and replays, and the replay
is subject to the same interceptor, so a further 401 triggers a further
refresh-and-replay (unbounded, until a non-401 outcome) rather than
exactly one replay; a failed refresh propagates a 401 error, and a non-401
failure propagates without any replay. -/
theorem c2_unbounded_replay (refreshOk : Bool) (rest : List ReqOutcome) (d : String)
    (st : Int) (hne : st ≠ 401) :
    runRequest refreshOk (ReqOutcome.success d :: rest) = ApiResult.ok d ∧
    runRequest refreshOk (ReqOutcome.failStatus st :: rest) = ApiResult.apiError (some st) ∧
    runRequest true (ReqOutcome.failStatus 401 :: rest) = runRequest true rest ∧
    runRequest false (ReqOutcome.failStatus 401 :: rest) = ApiResult.apiError (some 401) := by
  refine ⟨rfl, ?_, ?_, rfl⟩
  · simp [runRequest, hne]
  · simp [runRequest]

/-- C2 witness: the characterization applied at status 500 and singleton
tails. -/
theorem c2_unbounded_replay_witness :
    runRequest true [ReqOutcome.success "d"] = ApiResult.ok "d" ∧
    runRequest true [ReqOutcome.failStatus 500] = ApiResult.apiError (some 500) ∧
    runRequest true [ReqOutcome.failStatus 401] = runRequest true [] ∧
    runRequest false [ReqOutcome.failStatus 401] = ApiResult.apiError (some 401) :=
  c2_unbounded_replay true [] "d" 500 (by decide)

/-- C3 counterexample: in a tick over sites "a" (fetch error) then "b"
(fetches fine as "armed"), site "b" is never published — the error on "a"
ends the whole tick — though the error is caught (logged) rather than
propagated. -/
theorem c3_counterexample :
    (processSites ⟨none, none, none, none⟩ 1000 [("a", none), ("b", some "armed")]
        ⟨0, [], false⟩).events = [] ∧
    ("b", "armed") ∉ (processSites ⟨none, none, none, none⟩ 1000
        [("a", none), ("b", some "armed")] ⟨0, [], false⟩).events ∧
    (processSites ⟨none, none, none, none⟩ 1000 [("a", none), ("b", some "armed")]
        ⟨0, [], false⟩).errorCaught = true := by
  decide

/-- C3 amended: the try/catch wraps the whole per-tick site loop, so an
error on one site is caught and logged at low severity and does not stop
the polling loop, but it aborts the remainder of the tick: exactly the
sites before the failing one are published (their state updates applied),
and the sites after it are neither fetched nor published in that tick. -/
theorem c3_error_aborts_tick (c : SomfyConfig) (now : Int) (sid : String)
    (rest : List (String × Option String)) :
    ∀ (good : List (String × String)) (st : SchedState),
      (processSites c now
          (good.map (fun p => (p.1, some p.2)) ++ (sid, none) :: rest) st).errorCaught = true ∧
      (processSites c now
          (good.map (fun p => (p.1, some p.2)) ++ (sid, none) :: rest) st).events = good ∧
      (processSites c now
          (good.map (fun p => (p.1, some p.2)) ++ (sid, none) :: rest) st).state =
        (processSites c now (good.map (fun p => (p.1, some p.2))) st).state := by
  intro good
  induction good with
  | nil => intro st; exact ⟨rfl, rfl, rfl⟩
  | cons hd tl ih =>
    intro st
    obtain ⟨s0, l0⟩ := hd
    simpa [processSites] using ih (updateSiteState c now st s0 l0).1

/-- C4 counterexample: a cadence switch with the polling timer active
(`restartPolling`) performs an immediate polling tick, because it clears
the timer and delegates to `startPolling`, which always polls at once. -/
theorem c4_counterexample :
    (restartPolling ⟨none, none, none, none⟩ 100000 ⟨0, [], false⟩ ⟨true⟩).immediateTick = true ∧
    ¬ (restartPolling ⟨none, none, none, none⟩ 100000 ⟨0, [], false⟩
        ⟨true⟩).immediateTick = false := by
  decide

/-- C4 amended: switching cadence (`restartPolling`) always forces an
immediate polling tick in addition to scheduling the new timer at the
newly selected interval; only `startPolling` on an already-active timer is
a no-op with no immediate tick. -/
theorem c4_restart_forces_immediate_tick (c : SomfyConfig) (now : Int) (st : SchedState)
    (t : TimerState) :
    restartPolling c now st t = ⟨⟨true⟩, some (getPollingInterval c now st), true⟩ ∧
    startPolling c now st ⟨true⟩ = ⟨⟨true⟩, none, false⟩ :=
  ⟨rfl, rfl⟩

/-- C6: with adaptive polling enabled and fast cadence already active,
observing a further level change for a site (any change, a revert
included) resets `lastStateChange` to the tick time without restarting the
timer, and the fast interval remains selected for a full fast-duration
window measured from that change. -/
theorem c6_flap_reextension (c : SomfyConfig) (st : SchedState) (sid lvl prev : String)
    (tc now2 : Int)
    (hA : adaptiveEnabled c = true)
    (hFast : st.isFastPolling = true)
    (hPrev : lookupLevel st.previousStates sid = some prev)
    (hNe : prev ≠ lvl) :
    (processSites c tc [(sid, some lvl)] st).state.lastStateChange = tc ∧
    (processSites c tc [(sid, some lvl)] st).state.isFastPolling = true ∧
    (processSites c tc [(sid, some lvl)] st).restarts = 0 ∧
    (now2 - tc < jsOrInt c.fastPollingDuration FAST_POLLING_DURATION →
      getPollingInterval c now2 (processSites c tc [(sid, some lvl)] st).state =
        jsOrInt c.fastPollingInterval FAST_INTERVAL) := by
  have hstep : updateSiteState c tc st sid lvl =
      (⟨tc, setLevel st.previousStates sid lvl, true⟩, 0) := by
    simp [updateSiteState, hA, hPrev, hNe, hFast]
  have hrun : processSites c tc [(sid, some lvl)] st =
      ⟨⟨tc, setLevel st.previousStates sid lvl, true⟩, [(sid, lvl)], 0, false⟩ := by
    simp [processSites, hstep]
  refine ⟨by rw [hrun], by rw [hrun], by rw [hrun], ?_⟩
  intro hwin
  rw [hrun]
  simp only [getPollingInterval, hA, if_true]
  simp [hwin]

/-- C6 witness: in a 60000 ms default window, a flap observed at t=30000
with fast cadence active keeps the fast interval (default 5000 ms)
selected at t=89999. -/
theorem c6_flap_reextension_witness :
    (processSites ⟨none, none, none, none⟩ 30000 [("a", some "disarmed")]
        ⟨0, [("a", "armed")], true⟩).state.lastStateChange = 30000 ∧
    (processSites ⟨none, none, none, none⟩ 30000 [("a", some "disarmed")]
        ⟨0, [("a", "armed")], true⟩).state.isFastPolling = true ∧
    (processSites ⟨none, none, none, none⟩ 30000 [("a", some "disarmed")]
        ⟨0, [("a", "armed")], true⟩).restarts = 0 ∧
    getPollingInterval ⟨none, none, none, none⟩ 89999
        (processSites ⟨none, none, none, none⟩ 30000 [("a", some "disarmed")]
          ⟨0, [("a", "armed")], true⟩).state =
      jsOrInt (⟨none, none, none, none⟩ : SomfyConfig).fastPollingInterval FAST_INTERVAL :=
  by
  obtain ⟨h1, h2, h3, h4⟩ :=
    c6_flap_reextension ⟨none, none, none, none⟩ ⟨0, [("a", "armed")], true⟩
      "a" "disarmed" "armed" 30000 89999 (by decide) rfl (by decide) (by decide)
  exact ⟨h1, h2, h3, h4 (by decide)⟩

/-- C8 counterexample: with no configured intervals the scheduler's base
interval is 10000 ms (not 60000) and its fast interval is 5000 ms (not
1000). -/
theorem c8_counterexample :
    getPollingInterval ⟨none, none, none, none⟩ 100000 ⟨0, [], false⟩ = 10000 ∧
    ¬ getPollingInterval ⟨none, none, none, none⟩ 100000 ⟨0, [], false⟩ = 60000 ∧
    getPollingInterval ⟨none, none, none, none⟩ 0 ⟨0, [], false⟩ = 5000 ∧
    ¬ getPollingInterval ⟨none, none, none, none⟩ 0 ⟨0, [], false⟩ = 1000 := by
  decide

/-- C8 amended: with no configured intervals the defaults are
`INITIAL_INTERVAL = 10000` ms (base) and `FAST_INTERVAL = 5000` ms (fast);
within the (default 60000 ms) fast window the scheduler selects 5000 ms,
and outside it 10000 ms. -/
theorem c8_default_intervals (now : Int) (st : SchedState) :
    INITIAL_INTERVAL = 10000 ∧ FAST_INTERVAL = 5000 ∧
    getPollingInterval ⟨none, none, none, none⟩ now st =
      if now - st.lastStateChange < 60000 then 5000 else 10000 := by
  refine ⟨rfl, rfl, ?_⟩
  simp [getPollingInterval, adaptiveEnabled, jsOrInt, INITIAL_INTERVAL, FAST_INTERVAL,
    FAST_POLLING_DURATION]

/-- C9 counterexample: with adaptive polling disabled, a tick observing
"armed" for site "a" leaves `previousStates` empty — the mapping is not
updated, contrary to the claim's "even when adaptive polling is
disabled". -/
theorem c9_counterexample :
    lookupLevel ((processSites ⟨some false, none, none, none⟩ 1000 [("a", some "armed")]
        ⟨0, [], false⟩).state).previousStates "a" = none ∧
    ¬ lookupLevel ((processSites ⟨some false, none, none, none⟩ 1000 [("a", some "armed")]
        ⟨0, [], false⟩).state).previousStates "a" = some "armed" := by
  decide

/-- C9 amended: whenever adaptive polling is enabled, processing a site
sets `previousStates[site_id]` to the observed level unconditionally —
whether or not a transition was detected — while with adaptive polling
disabled a tick leaves the scheduler state (including `previousStates`)
entirely untouched and makes no timer restarts. -/
theorem c9_previous_level_update (c c' : SomfyConfig) (now : Int) (sid lvl : String)
    (st : SchedState) (sites : List (String × Option String))
    (h : adaptiveEnabled c = true) (h' : adaptiveEnabled c' = false) :
    lookupLevel ((updateSiteState c now st sid lvl).1.previousStates) sid = some lvl ∧
    (processSites c' now sites st).state = st ∧
    (processSites c' now sites st).restarts = 0 := by
  refine ⟨by simp [updateSiteState, h, lookupLevel_setLevel], ?_, ?_⟩
  · induction sites generalizing st with
    | nil => rfl
    | cons hd tl ih =>
      obtain ⟨s0, f0⟩ := hd
      cases f0 with
      | none => rfl
      | some l0 => simpa [processSites, updateSiteState, h'] using ih st
  · induction sites generalizing st with
    | nil => rfl
    | cons hd tl ih =>
      obtain ⟨s0, f0⟩ := hd
      cases f0 with
      | none => rfl
      | some l0 => simpa [processSites, updateSiteState, h'] using ih st

/-- C9 witness: adaptive on (default config) records the observed level
even with no transition detected; adaptive off leaves the state untouched. -/
theorem c9_previous_level_update_witness :
    lookupLevel ((updateSiteState ⟨none, none, none, none⟩ 1000 ⟨0, [], false⟩
        "a" "armed").1.previousStates) "a" = some "armed" ∧
    (processSites ⟨some false, none, none, none⟩ 1000 [("a", some "armed")]
        ⟨0, [], false⟩).state = ⟨0, [], false⟩ ∧
    (processSites ⟨some false, none, none, none⟩ 1000 [("a", some "armed")]
        ⟨0, [], false⟩).restarts = 0 :=
  c9_previous_level_update ⟨none, none, none, none⟩ ⟨some false, none, none, none⟩
    1000 "a" "armed" ⟨0, [], false⟩ [("a", some "armed")] (by decide) (by decide)

end SomfyProtect
